import Mathlib

/-
Verification of the `astra` server core (src/server.rs): a bridge exposing a
synchronous request handler through hyper's two-level service protocol.

Shallow embedding conventions:
- machine integers (`usize`, `u32`) become `Nat`; `std::time::Duration` is a
  nanosecond count; `SocketAddr` is an ip/port pair of `Nat`s.
- `Arc<S>` becomes a handle carrying the identity (a `Nat`) of its allocation
  together with the shared value; `Arc::new` fixes the identity, `Arc::clone`
  returns the very same handle (a reference-count bump shares the allocation).
- a `panic!`/`unwrap`/`expect` fault is an explicit `none` (for `Call::poll`
  and `Server::bind`) or an explicit `ServeFault` value (inside `serve`).
- the external collaborators (hyper's engine, the reactor, `block_on`) are
  inputs: `serve` receives a `ServeEnv` holding the outcome of reactor
  creation, the listener bind function, the fresh `Arc` allocation identity
  and the blocking driver, and threads them exactly as the source does.
- the `options!` macro application is embedded with an invocation trace: each
  hyper-builder setter records itself in `trace`, so which setters `serve`
  invoked, and with which values, is observable in the result.
-/

namespace Astra

/-- Socket address (std::net::SocketAddr), abstracted to an ip/port pair. -/
structure SocketAddr where
  ip : Nat
  port : Nat
  deriving DecidableEq, Repr

/-- Duration (std::time::Duration), abstracted to a nanosecond count. -/
structure Duration where
  nanos : Nat
  deriving DecidableEq, Repr

/-- io::ErrorKind; only `Other` is produced by this file, the rest stand in
for the remaining kinds. -/
inductive IoErrorKind where
  | other
  | addr_in_use
  | not_found
  deriving DecidableEq, Repr

/-- Error produced by hyper while serving (the `err` in
`block_on(server).map_err(...)`), abstracted to a numeric payload. -/
structure HyperError where
  code : Nat
  deriving DecidableEq, Repr

/-- io::Error, as built by `io::Error::new(kind, err)`: a kind plus the
payload of the wrapped source error. -/
structure IoError where
  kind : IoErrorKind
  payload : Nat
  deriving DecidableEq, Repr

/-- The external reactor (crate::reactor::Reactor), treated as an abstract
token. -/
structure Reactor where
  id : Nat
  deriving DecidableEq, Repr

/-- The listener (crate::net::TcpListener), treated as an abstract token. -/
structure TcpListener where
  id : Nat
  deriving DecidableEq, Repr

/-- std::convert::Infallible: the uninhabited error type. -/
inductive Infallible : Type where

/-- std::task::Poll. -/
inductive Poll (α : Type) where
  | ready (val : α)
  | pending
  deriving DecidableEq, Repr

/-- std::future::Ready: an already-completed future holding its value. -/
structure Ready (α : Type) where
  value : α
  deriving DecidableEq, Repr

/-- Polling a `Ready` future yields its value at once. -/
def Ready.poll (r : Ready α) : Poll α :=
  Poll.ready r.value

/-- std::future::ready. -/
def ready (a : α) : Ready α :=
  Ready.mk a

/-- Arc<S>: a shared-ownership handle. `id` is the identity of the underlying
allocation; two handles with the same `id` share one allocation. -/
structure Arc (S : Type) where
  id : Nat
  val : S

/-- Arc::new: wraps a value in a fresh allocation with the given identity. -/
def Arc.new (id : Nat) (s : S) : Arc S :=
  Arc.mk id s

/-- Arc::clone: a reference-count increment returning a handle to the same
allocation — the handle itself is unchanged. -/
def Arc.clone (a : Arc S) : Arc S :=
  a

/-- The `Service` trait of src/server.rs: a synchronous
`call(request) -> response` capability. Request and response bodies are
abstract types. -/
structure Service (Req Resp : Type) where
  call : Req → Resp

/-- The `Server` builder struct of src/server.rs, field for field; every
field is optional and `#[derive(Default)]` makes them all start out unset. -/
structure Server where
  addr : Option (List SocketAddr) := none
  http1_keepalive : Option Bool := none
  http1_half_close : Option Bool := none
  http1_max_buf_size : Option Nat := none
  http1_pipeline_flush : Option Bool := none
  http1_writev : Option Bool := none
  http1_title_case_headers : Option Bool := none
  http1_preserve_header_case : Option Bool := none
  http1_only : Option Bool := none
  http2_only : Option Bool := none
  http2_initial_stream_window_size : Option Nat := none
  http2_initial_connection_window_size : Option Nat := none
  http2_adaptive_window : Option Bool := none
  http2_max_frame_size : Option Nat := none
  http2_max_concurrent_streams : Option Nat := none
  http2_max_send_buf_size : Option Nat := none
  worker_keep_alive : Option Duration := none
  max_workers : Option Nat := none
  deriving DecidableEq, Repr

/-- Server::default(): every field unset. -/
def Server.default : Server :=
  {}

/-- Server::bind. `resolved` is the outcome of `addr.to_socket_addrs()`; the
source calls `.unwrap()` on it, so a resolution error is a panic, embedded as
`none`. On success the returned builder has `addr` set and every other field
left at its default. -/
def Server.bind (resolved : Except IoError (List SocketAddr)) : Option Server :=
  match resolved with
  | Except.error _ => none
  | Except.ok addrs => some { Server.default with addr := some addrs }

/-- Server::max_workers (embeds the source method of that name). -/
def Server.set_max_workers (self : Server) (val : Nat) : Server :=
  { self with max_workers := some val }

/-- Server::worker_keep_alive. -/
def Server.set_worker_keep_alive (self : Server) (val : Duration) : Server :=
  { self with worker_keep_alive := some val }

/-- Server::http1_keepalive. -/
def Server.set_http1_keepalive (self : Server) (val : Bool) : Server :=
  { self with http1_keepalive := some val }

/-- Server::http1_half_close. -/
def Server.set_http1_half_close (self : Server) (val : Bool) : Server :=
  { self with http1_half_close := some val }

/-- Server::http1_max_buf_size. -/
def Server.set_http1_max_buf_size (self : Server) (val : Nat) : Server :=
  { self with http1_max_buf_size := some val }

/-- Server::http1_pipeline_flush. -/
def Server.set_http1_pipeline_flush (self : Server) (val : Bool) : Server :=
  { self with http1_pipeline_flush := some val }

/-- Server::http1_writev. -/
def Server.set_http1_writev (self : Server) (enabled : Bool) : Server :=
  { self with http1_writev := some enabled }

/-- Server::http1_title_case_headers. -/
def Server.set_http1_title_case_headers (self : Server) (val : Bool) : Server :=
  { self with http1_title_case_headers := some val }

/-- Server::http1_preserve_header_case. -/
def Server.set_http1_preserve_header_case (self : Server) (val : Bool) : Server :=
  { self with http1_preserve_header_case := some val }

/-- Server::http1_only. -/
def Server.set_http1_only (self : Server) (val : Bool) : Server :=
  { self with http1_only := some val }

/-- Server::http2_only. -/
def Server.set_http2_only (self : Server) (val : Bool) : Server :=
  { self with http2_only := some val }

/-- Server::http2_initial_stream_window_size: the argument is
`impl Into<Option<u32>>` and the field is assigned `sz.into()` directly, so it
is embedded as taking the `Option` itself. -/
def Server.set_http2_initial_stream_window_size (self : Server) (sz : Option Nat) : Server :=
  { self with http2_initial_stream_window_size := sz }

/-- Server::http2_initial_connection_window_size (argument
`impl Into<Option<u32>>`, assigned directly). -/
def Server.set_http2_initial_connection_window_size (self : Server) (sz : Option Nat) : Server :=
  { self with http2_initial_connection_window_size := sz }

/-- Server::http2_adaptive_window. -/
def Server.set_http2_adaptive_window (self : Server) (enabled : Bool) : Server :=
  { self with http2_adaptive_window := some enabled }

/-- Server::http2_max_frame_size (argument `impl Into<Option<u32>>`, assigned
directly). -/
def Server.set_http2_max_frame_size (self : Server) (sz : Option Nat) : Server :=
  { self with http2_max_frame_size := sz }

/-- Server::http2_max_concurrent_streams (argument `impl Into<Option<u32>>`,
assigned directly). -/
def Server.set_http2_max_concurrent_streams (self : Server) (max : Option Nat) : Server :=
  { self with http2_max_concurrent_streams := max }

/-- Server::http2_max_send_buf_size. -/
def Server.set_http2_max_send_buf_size (self : Server) (max : Nat) : Server :=
  { self with http2_max_send_buf_size := some max }

/-- The per-connection factory `service::MakeService<S>`: a newtype around the
shared `Arc<S>` handle. -/
structure MakeService (Req Resp : Type) where
  handler : Arc (Service Req Resp)

/-- MakeService::poll_ready: always `Poll::Ready(Ok(()))` with the
uninhabited error type. The context argument is unused by the source. -/
def MakeService.poll_ready (m : MakeService Req Resp) (cx : Unit) :
    Poll (Except Infallible Unit) :=
  Poll.ready (Except.ok ())

/-- The per-request invoker `service::Lazy<S>`: a newtype around the shared
`Arc<S>` handle, produced once per connection. -/
structure Lazy (Req Resp : Type) where
  handler : Arc (Service Req Resp)

/-- MakeService::call: for any connection target, immediately returns the
already-completed future `ready(Ok(Lazy(self.0.clone())))`. -/
def MakeService.call (m : MakeService Req Resp) (target : T) :
    Ready (Except Infallible (Lazy Req Resp)) :=
  ready (Except.ok (Lazy.mk m.handler.clone))

/-- Lazy::poll_ready: always `Poll::Ready(Ok(()))`. -/
def Lazy.poll_ready (l : Lazy Req Resp) (cx : Unit) :
    Poll (Except Infallible Unit) :=
  Poll.ready (Except.ok ())

/-- The per-request unit `service::Call<S>(Arc<S>, Option<Request>)`: the
shared handler handle plus the pending request slot. -/
structure Call (Req Resp : Type) where
  handler : Arc (Service Req Resp)
  request : Option Req

/-- Lazy::call: builds the request unit `Call(self.0.clone(), Some(req))`. -/
def Lazy.call (l : Lazy Req Resp) (req : Req) : Call Req Resp :=
  Call.mk l.handler.clone (some req)

/-- Future::poll for `Call`: `self.1.take().unwrap()` empties the request
slot (panicking — `none` here — if it is already empty), then returns
`Poll::Ready(Ok(self.0.call(req)))`. The result pairs the mutated unit with
the poll outcome. -/
def Call.poll (c : Call Req Resp) :
    Option (Call Req Resp × Poll (Except Infallible Resp)) :=
  match c.request with
  | none => none
  | some req =>
      some (Call.mk c.handler none, Poll.ready (Except.ok (c.handler.val.call req)))

/-- One invocation of a setter on hyper's server builder, with the value it
was passed. One constructor per option in the fixed list of the `options!`
call in `Server::serve`. -/
inductive SetterCall where
  | http1_keepalive (val : Bool)
  | http1_half_close (val : Bool)
  | http1_max_buf_size (val : Nat)
  | http1_pipeline_flush (val : Bool)
  | http1_writev (val : Bool)
  | http1_title_case_headers (val : Bool)
  | http1_preserve_header_case (val : Bool)
  | http1_only (val : Bool)
  | http2_only (val : Bool)
  | http2_initial_stream_window_size (val : Nat)
  | http2_initial_connection_window_size (val : Nat)
  | http2_adaptive_window (val : Bool)
  | http2_max_frame_size (val : Nat)
  | http2_max_concurrent_streams (val : Nat)
  | http2_max_send_buf_size (val : Nat)
  deriving DecidableEq, Repr

/-- The engine-side configuration held by hyper's builder: one slot per
tunable in the fixed list. `none` means the setter was never invoked and the
engine's own built-in default stays in force. -/
structure EngineConfig where
  http1_keepalive : Option Bool := none
  http1_half_close : Option Bool := none
  http1_max_buf_size : Option Nat := none
  http1_pipeline_flush : Option Bool := none
  http1_writev : Option Bool := none
  http1_title_case_headers : Option Bool := none
  http1_preserve_header_case : Option Bool := none
  http1_only : Option Bool := none
  http2_only : Option Bool := none
  http2_initial_stream_window_size : Option Nat := none
  http2_initial_connection_window_size : Option Nat := none
  http2_adaptive_window : Option Bool := none
  http2_max_frame_size : Option Nat := none
  http2_max_concurrent_streams : Option Nat := none
  http2_max_send_buf_size : Option Nat := none
  deriving DecidableEq, Repr

/-- The worker-pool executor (crate::executor::Executor), as constructed by
`Executor::new(max_workers, worker_keep_alive)`: it records the two pool
configuration values. -/
structure Executor where
  max_workers : Option Nat
  worker_keep_alive : Option Duration
  deriving DecidableEq, Repr

/-- Executor::new. -/
def Executor.new (mw : Option Nat) (ka : Option Duration) : Executor :=
  Executor.mk mw ka

/-- hyper's server builder as assembled by `serve`: the listener, the
executor, the engine configuration, and the trace of setter invocations made
on it (in order). -/
structure HyperBuilder where
  listener : TcpListener
  executor : Executor
  cfg : EngineConfig
  trace : List SetterCall
  deriving DecidableEq, Repr

/-- hyper::Server::builder(listener).executor(executor): a fully-defaulted
configuration with no setter yet invoked. -/
def HyperBuilder.new (listener : TcpListener) (executor : Executor) : HyperBuilder :=
  HyperBuilder.mk listener executor {} []

/-- hyper builder setter for http1_keepalive: records the invocation and
stores the value. -/
def HyperBuilder.http1_keepalive (b : HyperBuilder) (val : Bool) : HyperBuilder :=
  { b with cfg := { b.cfg with http1_keepalive := some val },
           trace := b.trace ++ [SetterCall.http1_keepalive val] }

/-- hyper builder setter for http1_half_close. -/
def HyperBuilder.http1_half_close (b : HyperBuilder) (val : Bool) : HyperBuilder :=
  { b with cfg := { b.cfg with http1_half_close := some val },
           trace := b.trace ++ [SetterCall.http1_half_close val] }

/-- hyper builder setter for http1_max_buf_size. -/
def HyperBuilder.http1_max_buf_size (b : HyperBuilder) (val : Nat) : HyperBuilder :=
  { b with cfg := { b.cfg with http1_max_buf_size := some val },
           trace := b.trace ++ [SetterCall.http1_max_buf_size val] }

/-- hyper builder setter for http1_pipeline_flush. -/
def HyperBuilder.http1_pipeline_flush (b : HyperBuilder) (val : Bool) : HyperBuilder :=
  { b with cfg := { b.cfg with http1_pipeline_flush := some val },
           trace := b.trace ++ [SetterCall.http1_pipeline_flush val] }

/-- hyper builder setter for http1_writev. -/
def HyperBuilder.http1_writev (b : HyperBuilder) (val : Bool) : HyperBuilder :=
  { b with cfg := { b.cfg with http1_writev := some val },
           trace := b.trace ++ [SetterCall.http1_writev val] }

/-- hyper builder setter for http1_title_case_headers. -/
def HyperBuilder.http1_title_case_headers (b : HyperBuilder) (val : Bool) : HyperBuilder :=
  { b with cfg := { b.cfg with http1_title_case_headers := some val },
           trace := b.trace ++ [SetterCall.http1_title_case_headers val] }

/-- hyper builder setter for http1_preserve_header_case. -/
def HyperBuilder.http1_preserve_header_case (b : HyperBuilder) (val : Bool) : HyperBuilder :=
  { b with cfg := { b.cfg with http1_preserve_header_case := some val },
           trace := b.trace ++ [SetterCall.http1_preserve_header_case val] }

/-- hyper builder setter for http1_only. -/
def HyperBuilder.http1_only (b : HyperBuilder) (val : Bool) : HyperBuilder :=
  { b with cfg := { b.cfg with http1_only := some val },
           trace := b.trace ++ [SetterCall.http1_only val] }

/-- hyper builder setter for http2_only. -/
def HyperBuilder.http2_only (b : HyperBuilder) (val : Bool) : HyperBuilder :=
  { b with cfg := { b.cfg with http2_only := some val },
           trace := b.trace ++ [SetterCall.http2_only val] }

/-- hyper builder setter for http2_initial_stream_window_size. -/
def HyperBuilder.http2_initial_stream_window_size (b : HyperBuilder) (val : Nat) : HyperBuilder :=
  { b with cfg := { b.cfg with http2_initial_stream_window_size := some val },
           trace := b.trace ++ [SetterCall.http2_initial_stream_window_size val] }

/-- hyper builder setter for http2_initial_connection_window_size. -/
def HyperBuilder.http2_initial_connection_window_size (b : HyperBuilder) (val : Nat) : HyperBuilder :=
  { b with cfg := { b.cfg with http2_initial_connection_window_size := some val },
           trace := b.trace ++ [SetterCall.http2_initial_connection_window_size val] }

/-- hyper builder setter for http2_adaptive_window. -/
def HyperBuilder.http2_adaptive_window (b : HyperBuilder) (val : Bool) : HyperBuilder :=
  { b with cfg := { b.cfg with http2_adaptive_window := some val },
           trace := b.trace ++ [SetterCall.http2_adaptive_window val] }

/-- hyper builder setter for http2_max_frame_size. -/
def HyperBuilder.http2_max_frame_size (b : HyperBuilder) (val : Nat) : HyperBuilder :=
  { b with cfg := { b.cfg with http2_max_frame_size := some val },
           trace := b.trace ++ [SetterCall.http2_max_frame_size val] }

/-- hyper builder setter for http2_max_concurrent_streams. -/
def HyperBuilder.http2_max_concurrent_streams (b : HyperBuilder) (val : Nat) : HyperBuilder :=
  { b with cfg := { b.cfg with http2_max_concurrent_streams := some val },
           trace := b.trace ++ [SetterCall.http2_max_concurrent_streams val] }

/-- hyper builder setter for http2_max_send_buf_size. -/
def HyperBuilder.http2_max_send_buf_size (b : HyperBuilder) (val : Nat) : HyperBuilder :=
  { b with cfg := { b.cfg with http2_max_send_buf_size := some val },
           trace := b.trace ++ [SetterCall.http2_max_send_buf_size val] }

/-- One expansion step of the `options!` macro:
`let other = if let Some(val) = self.option { other.option(val) } else { other }`. -/
def applyOpt {α : Type} (o : Option α) (set : HyperBuilder → α → HyperBuilder)
    (b : HyperBuilder) : HyperBuilder :=
  match o with
  | some val => set b val
  | none => b

/-- The `options!` invocation of `Server::serve`, expanded option by option in
the source's fixed order. -/
def applyOptions (self : Server) (other : HyperBuilder) : HyperBuilder :=
  let other := applyOpt self.http1_keepalive HyperBuilder.http1_keepalive other
  let other := applyOpt self.http1_half_close HyperBuilder.http1_half_close other
  let other := applyOpt self.http1_max_buf_size HyperBuilder.http1_max_buf_size other
  let other := applyOpt self.http1_pipeline_flush HyperBuilder.http1_pipeline_flush other
  let other := applyOpt self.http1_writev HyperBuilder.http1_writev other
  let other := applyOpt self.http1_title_case_headers HyperBuilder.http1_title_case_headers other
  let other := applyOpt self.http1_preserve_header_case HyperBuilder.http1_preserve_header_case other
  let other := applyOpt self.http1_only HyperBuilder.http1_only other
  let other := applyOpt self.http2_only HyperBuilder.http2_only other
  let other := applyOpt self.http2_initial_stream_window_size HyperBuilder.http2_initial_stream_window_size other
  let other := applyOpt self.http2_initial_connection_window_size HyperBuilder.http2_initial_connection_window_size other
  let other := applyOpt self.http2_adaptive_window HyperBuilder.http2_adaptive_window other
  let other := applyOpt self.http2_max_frame_size HyperBuilder.http2_max_frame_size other
  let other := applyOpt self.http2_max_concurrent_streams HyperBuilder.http2_max_concurrent_streams other
  let other := applyOpt self.http2_max_send_buf_size HyperBuilder.http2_max_send_buf_size other
  other

/-- The setter invocations one option contributes: exactly one call carrying
the set value, or none at all when the option is unset. -/
def optTrace {α : Type} (o : Option α) (mk : α → SetterCall) : List SetterCall :=
  match o with
  | some val => [mk val]
  | none => []

/-- Modelled from the spec: the setter invocations `serve` is required to
make — for each option in the fixed list whose value was explicitly set, one
invocation of the corresponding setter with exactly that value, in the fixed
order; for each option left unset, no invocation. -/
def specSetterCalls (self : Server) : List SetterCall :=
  optTrace self.http1_keepalive SetterCall.http1_keepalive
    ++ optTrace self.http1_half_close SetterCall.http1_half_close
    ++ optTrace self.http1_max_buf_size SetterCall.http1_max_buf_size
    ++ optTrace self.http1_pipeline_flush SetterCall.http1_pipeline_flush
    ++ optTrace self.http1_writev SetterCall.http1_writev
    ++ optTrace self.http1_title_case_headers SetterCall.http1_title_case_headers
    ++ optTrace self.http1_preserve_header_case SetterCall.http1_preserve_header_case
    ++ optTrace self.http1_only SetterCall.http1_only
    ++ optTrace self.http2_only SetterCall.http2_only
    ++ optTrace self.http2_initial_stream_window_size SetterCall.http2_initial_stream_window_size
    ++ optTrace self.http2_initial_connection_window_size SetterCall.http2_initial_connection_window_size
    ++ optTrace self.http2_adaptive_window SetterCall.http2_adaptive_window
    ++ optTrace self.http2_max_frame_size SetterCall.http2_max_frame_size
    ++ optTrace self.http2_max_concurrent_streams SetterCall.http2_max_concurrent_streams
    ++ optTrace self.http2_max_send_buf_size SetterCall.http2_max_send_buf_size

/-- Every option of the fixed `options!` list is unset on this builder. -/
def allUnset (self : Server) : Prop :=
  self.http1_keepalive = none
    ∧ self.http1_half_close = none
    ∧ self.http1_max_buf_size = none
    ∧ self.http1_pipeline_flush = none
    ∧ self.http1_writev = none
    ∧ self.http1_title_case_headers = none
    ∧ self.http1_preserve_header_case = none
    ∧ self.http1_only = none
    ∧ self.http2_only = none
    ∧ self.http2_initial_stream_window_size = none
    ∧ self.http2_initial_connection_window_size = none
    ∧ self.http2_adaptive_window = none
    ∧ self.http2_max_frame_size = none
    ∧ self.http2_max_concurrent_streams = none
    ∧ self.http2_max_send_buf_size = none

/-- The panics `Server::serve` can hit, in source order: the `expect` on
`Reactor::new()`, the `unwrap` on `self.addr`, and the `expect` on
`TcpListener::bind`. -/
inductive ServeFault where
  | reactor_create
  | addr_unwrap
  | listener_bind
  deriving DecidableEq, Repr

/-- The assembled server handed to `executor::block_on`: the configured
hyper builder plus the `MakeService` wrapping the handler. -/
structure Assembled (Req Resp : Type) where
  builder : HyperBuilder
  make_service : MakeService Req Resp

/-- The external collaborators `Server::serve` interacts with: the outcome of
`Reactor::new()`, the behavior of `TcpListener::bind`, the identity of the
fresh allocation made by `Arc::new(service)`, and the blocking driver
`executor::block_on` on the assembled server. -/
structure ServeEnv (Req Resp : Type) where
  reactor_new : Except IoError Reactor
  listener_bind : Reactor → List SocketAddr → Except IoError TcpListener
  arc_id : Nat
  block_on : Assembled Req Resp → Except HyperError Unit

/-- The `map_err` closure of `serve`:
`io::Error::new(io::ErrorKind::Other, err)`. -/
def wrapHyper (e : HyperError) : IoError :=
  IoError.mk IoErrorKind.other e.code

/-- The assembly `serve` performs once reactor and listener exist: build the
executor from the pool options, apply the `options!` list to hyper's builder,
and wrap the handler in a single fresh `Arc` inside a `MakeService`. -/
def Server.assemble (self : Server) (env : ServeEnv Req Resp)
    (service : Service Req Resp) (listener : TcpListener) : Assembled Req Resp :=
  let executor := Executor.new self.max_workers self.worker_keep_alive
  Assembled.mk (applyOptions self (HyperBuilder.new listener executor))
    (MakeService.mk (Arc.new env.arc_id service))

/-- Server::serve, step for step: create the reactor (`expect`), unwrap the
address list, bind the listener (`expect`), assemble executor + configured
builder + `MakeService(Arc::new(service))`, then block on the server and map
any driver error into an `io::Error` of kind `Other`. A `ServeFault` is a
panic; otherwise the `io::Result<()>` of the source is returned. -/
def Server.serve (self : Server) (env : ServeEnv Req Resp)
    (service : Service Req Resp) : Except ServeFault (Except IoError Unit) :=
  match env.reactor_new with
  | Except.error _ => Except.error ServeFault.reactor_create
  | Except.ok reactor =>
    match self.addr with
    | none => Except.error ServeFault.addr_unwrap
    | some addrs =>
      match env.listener_bind reactor addrs with
      | Except.error _ => Except.error ServeFault.listener_bind
      | Except.ok listener =>
          Except.ok (Except.mapError wrapHyper
            (env.block_on (self.assemble env service listener)))

/-- Trace of one `options!` step for http1_keepalive. -/
theorem trace_http1_keepalive (o : Option Bool) (b : HyperBuilder) :
    (applyOpt o HyperBuilder.http1_keepalive b).trace
      = b.trace ++ optTrace o SetterCall.http1_keepalive := by
  cases o <;> simp [applyOpt, optTrace, HyperBuilder.http1_keepalive]

/-- Trace of one `options!` step for http1_half_close. -/
theorem trace_http1_half_close (o : Option Bool) (b : HyperBuilder) :
    (applyOpt o HyperBuilder.http1_half_close b).trace
      = b.trace ++ optTrace o SetterCall.http1_half_close := by
  cases o <;> simp [applyOpt, optTrace, HyperBuilder.http1_half_close]

/-- Trace of one `options!` step for http1_max_buf_size. -/
theorem trace_http1_max_buf_size (o : Option Nat) (b : HyperBuilder) :
    (applyOpt o HyperBuilder.http1_max_buf_size b).trace
      = b.trace ++ optTrace o SetterCall.http1_max_buf_size := by
  cases o <;> simp [applyOpt, optTrace, HyperBuilder.http1_max_buf_size]

/-- Trace of one `options!` step for http1_pipeline_flush. -/
theorem trace_http1_pipeline_flush (o : Option Bool) (b : HyperBuilder) :
    (applyOpt o HyperBuilder.http1_pipeline_flush b).trace
      = b.trace ++ optTrace o SetterCall.http1_pipeline_flush := by
  cases o <;> simp [applyOpt, optTrace, HyperBuilder.http1_pipeline_flush]

/-- Trace of one `options!` step for http1_writev. -/
theorem trace_http1_writev (o : Option Bool) (b : HyperBuilder) :
    (applyOpt o HyperBuilder.http1_writev b).trace
      = b.trace ++ optTrace o SetterCall.http1_writev := by
  cases o <;> simp [applyOpt, optTrace, HyperBuilder.http1_writev]

/-- Trace of one `options!` step for http1_title_case_headers. -/
theorem trace_http1_title_case_headers (o : Option Bool) (b : HyperBuilder) :
    (applyOpt o HyperBuilder.http1_title_case_headers b).trace
      = b.trace ++ optTrace o SetterCall.http1_title_case_headers := by
  cases o <;> simp [applyOpt, optTrace, HyperBuilder.http1_title_case_headers]

/-- Trace of one `options!` step for http1_preserve_header_case. -/
theorem trace_http1_preserve_header_case (o : Option Bool) (b : HyperBuilder) :
    (applyOpt o HyperBuilder.http1_preserve_header_case b).trace
      = b.trace ++ optTrace o SetterCall.http1_preserve_header_case := by
  cases o <;> simp [applyOpt, optTrace, HyperBuilder.http1_preserve_header_case]

/-- Trace of one `options!` step for http1_only. -/
theorem trace_http1_only (o : Option Bool) (b : HyperBuilder) :
    (applyOpt o HyperBuilder.http1_only b).trace
      = b.trace ++ optTrace o SetterCall.http1_only := by
  cases o <;> simp [applyOpt, optTrace, HyperBuilder.http1_only]

/-- Trace of one `options!` step for http2_only. -/
theorem trace_http2_only (o : Option Bool) (b : HyperBuilder) :
    (applyOpt o HyperBuilder.http2_only b).trace
      = b.trace ++ optTrace o SetterCall.http2_only := by
  cases o <;> simp [applyOpt, optTrace, HyperBuilder.http2_only]

/-- Trace of one `options!` step for http2_initial_stream_window_size. -/
theorem trace_http2_initial_stream_window_size (o : Option Nat) (b : HyperBuilder) :
    (applyOpt o HyperBuilder.http2_initial_stream_window_size b).trace
      = b.trace ++ optTrace o SetterCall.http2_initial_stream_window_size := by
  cases o <;> simp [applyOpt, optTrace, HyperBuilder.http2_initial_stream_window_size]

/-- Trace of one `options!` step for http2_initial_connection_window_size. -/
theorem trace_http2_initial_connection_window_size (o : Option Nat) (b : HyperBuilder) :
    (applyOpt o HyperBuilder.http2_initial_connection_window_size b).trace
      = b.trace ++ optTrace o SetterCall.http2_initial_connection_window_size := by
  cases o <;> simp [applyOpt, optTrace, HyperBuilder.http2_initial_connection_window_size]

/-- Trace of one `options!` step for http2_adaptive_window. -/
theorem trace_http2_adaptive_window (o : Option Bool) (b : HyperBuilder) :
    (applyOpt o HyperBuilder.http2_adaptive_window b).trace
      = b.trace ++ optTrace o SetterCall.http2_adaptive_window := by
  cases o <;> simp [applyOpt, optTrace, HyperBuilder.http2_adaptive_window]

/-- Trace of one `options!` step for http2_max_frame_size. -/
theorem trace_http2_max_frame_size (o : Option Nat) (b : HyperBuilder) :
    (applyOpt o HyperBuilder.http2_max_frame_size b).trace
      = b.trace ++ optTrace o SetterCall.http2_max_frame_size := by
  cases o <;> simp [applyOpt, optTrace, HyperBuilder.http2_max_frame_size]

/-- Trace of one `options!` step for http2_max_concurrent_streams. -/
theorem trace_http2_max_concurrent_streams (o : Option Nat) (b : HyperBuilder) :
    (applyOpt o HyperBuilder.http2_max_concurrent_streams b).trace
      = b.trace ++ optTrace o SetterCall.http2_max_concurrent_streams := by
  cases o <;> simp [applyOpt, optTrace, HyperBuilder.http2_max_concurrent_streams]

/-- Trace of one `options!` step for http2_max_send_buf_size. -/
theorem trace_http2_max_send_buf_size (o : Option Nat) (b : HyperBuilder) :
    (applyOpt o HyperBuilder.http2_max_send_buf_size b).trace
      = b.trace ++ optTrace o SetterCall.http2_max_send_buf_size := by
  cases o <;> simp [applyOpt, optTrace, HyperBuilder.http2_max_send_buf_size]

/-- C5: the `options!` application in `serve` invokes, in the fixed order,
exactly one engine-builder setter per explicitly set option, with exactly the
set value, and no setter for an unset option; and when every option is unset
it returns the builder untouched, so the engine's fully-defaulted
configuration stands. -/
theorem serve_options_applied (self : Server) (b : HyperBuilder) :
    (applyOptions self b).trace = b.trace ++ specSetterCalls self
      ∧ (allUnset self → applyOptions self b = b) := by
  constructor
  · simp only [applyOptions]
    simp [trace_http1_keepalive, trace_http1_half_close, trace_http1_max_buf_size,
      trace_http1_pipeline_flush, trace_http1_writev, trace_http1_title_case_headers,
      trace_http1_preserve_header_case, trace_http1_only, trace_http2_only,
      trace_http2_initial_stream_window_size, trace_http2_initial_connection_window_size,
      trace_http2_adaptive_window, trace_http2_max_frame_size,
      trace_http2_max_concurrent_streams, trace_http2_max_send_buf_size,
      specSetterCalls, List.append_assoc]
  · intro h
    obtain ⟨h1, h2, h3, h4, h5, h6, h7, h8, h9, h10, h11, h12, h13, h14, h15⟩ := h
    simp [applyOptions, applyOpt, h1, h2, h3, h4, h5, h6, h7, h8, h9, h10, h11, h12,
      h13, h14, h15]

/-- Witness for C5: on the fully-unset default builder, no setter is invoked
and the fresh engine configuration comes back untouched. -/
theorem serve_options_applied_witness :
    (applyOptions Server.default
        (HyperBuilder.new (TcpListener.mk 0) (Executor.new none none))).trace = []
      ∧ applyOptions Server.default
          (HyperBuilder.new (TcpListener.mk 0) (Executor.new none none))
        = HyperBuilder.new (TcpListener.mk 0) (Executor.new none none) := by
  refine ⟨?_, ?_⟩
  · have h := (serve_options_applied Server.default
      (HyperBuilder.new (TcpListener.mk 0) (Executor.new none none))).1
    simpa [HyperBuilder.new, specSetterCalls, optTrace, Server.default] using h
  · exact (serve_options_applied Server.default
      (HyperBuilder.new (TcpListener.mk 0) (Executor.new none none))).2
      ⟨rfl, rfl, rfl, rfl, rfl, rfl, rfl, rfl, rfl, rfl, rfl, rfl, rfl, rfl, rfl⟩

/-- A server whose address list was populated by a successful bind. -/
def serverOne : Server :=
  { Server.default with addr := some [SocketAddr.mk 0 80] }

/-- The identity handler on an abstract numeric request body. -/
def serviceId : Service Nat Nat :=
  Service.mk (fun r => r)

/-- Collaborator behavior where the reactor is created but the listener bind
fails. -/
def envBindFail : ServeEnv Nat Nat :=
  ServeEnv.mk (Except.ok (Reactor.mk 0))
    (fun _ _ => Except.error (IoError.mk IoErrorKind.addr_in_use 0)) 0
    (fun _ => Except.ok ())

/-- Collaborator behavior where setup succeeds and the blocking driver
surfaces a hyper error with payload 7. -/
def envRun : ServeEnv Nat Nat :=
  ServeEnv.mk (Except.ok (Reactor.mk 0))
    (fun _ _ => Except.ok (TcpListener.mk 1)) 5
    (fun _ => Except.error (HyperError.mk 7))

/-- C6: a failed address resolution makes `Server::bind` fault instead of
returning any builder, and a failed listener bind inside `serve` makes
`serve` fault at that step — for every possible blocking driver, so serving
never begins after a bind failure and nothing is retried. -/
theorem bind_failure_fatal (Req Resp : Type) (e : IoError) (self : Server)
    (env : ServeEnv Req Resp) (service : Service Req Resp)
    (addrs : List SocketAddr) (r : Reactor) (eb : IoError)
    (h1 : self.addr = some addrs) (h2 : env.reactor_new = Except.ok r)
    (h3 : env.listener_bind r addrs = Except.error eb) :
    Server.bind (Except.error e) = none
      ∧ self.serve env service = Except.error ServeFault.listener_bind := by
  refine ⟨rfl, ?_⟩
  simp [Server.serve, h1, h2, h3]

/-- Witness for C6 at a concrete failing bind environment. -/
theorem bind_failure_fatal_witness :
    Server.bind (Except.error (IoError.mk IoErrorKind.other 0)) = none
      ∧ serverOne.serve envBindFail serviceId = Except.error ServeFault.listener_bind :=
  bind_failure_fatal Nat Nat (IoError.mk IoErrorKind.other 0) serverOne envBindFail
    serviceId [SocketAddr.mk 0 80] (Reactor.mk 0) (IoError.mk IoErrorKind.addr_in_use 0)
    rfl rfl rfl

/-- C7: once reactor and listener exist, `serve` returns exactly the blocking
driver's terminal result with every driver error mapped through
`io::Error::new(Other, err)` — success yields `Ok(())`, and any driver error
yields the single wrapped I/O failure, with no retry. -/
theorem serve_terminal_result (Req Resp : Type) (self : Server)
    (env : ServeEnv Req Resp) (service : Service Req Resp)
    (addrs : List SocketAddr) (r : Reactor) (listener : TcpListener)
    (h1 : self.addr = some addrs) (h2 : env.reactor_new = Except.ok r)
    (h3 : env.listener_bind r addrs = Except.ok listener) :
    self.serve env service
        = Except.ok (Except.mapError wrapHyper
            (env.block_on (self.assemble env service listener)))
      ∧ (env.block_on (self.assemble env service listener) = Except.ok () →
          self.serve env service = Except.ok (Except.ok ()))
      ∧ (∀ e : HyperError,
          env.block_on (self.assemble env service listener) = Except.error e →
          self.serve env service
            = Except.ok (Except.error (IoError.mk IoErrorKind.other e.code))) := by
  have hmain : self.serve env service
      = Except.ok (Except.mapError wrapHyper
          (env.block_on (self.assemble env service listener))) := by
    simp [Server.serve, h1, h2, h3]
  refine ⟨hmain, ?_, ?_⟩
  · intro hb
    rw [hmain, hb]
    rfl
  · intro e hb
    rw [hmain, hb]
    rfl

/-- Witness for C7: with a concrete driver surfacing hyper error 7, `serve`
returns `Ok(Err(io::Error { kind: Other, payload: 7 }))`. -/
theorem serve_terminal_result_witness :
    serverOne.serve envRun serviceId
      = Except.ok (Except.error (IoError.mk IoErrorKind.other 7)) :=
  (serve_terminal_result Nat Nat serverOne envRun serviceId [SocketAddr.mk 0 80]
    (Reactor.mk 0) (TcpListener.mk 1) rfl rfl rfl).2.2 (HyperError.mk 7) rfl

/-- C9: a successful `bind` populates the address field, so `serve` on such a
server can never fault at the address unwrap; a defaulted server, whose
address field is empty, faults at exactly that unwrap once the reactor has
been created. -/
theorem serve_requires_bind (Req Resp : Type) (env : ServeEnv Req Resp)
    (service : Service Req Resp) (addrs : List SocketAddr) (r : Reactor)
    (h2 : env.reactor_new = Except.ok r) :
    Server.bind (Except.ok addrs) = some { Server.default with addr := some addrs }
      ∧ (∀ s : Server, Server.bind (Except.ok addrs) = some s →
          s.serve env service ≠ Except.error ServeFault.addr_unwrap)
      ∧ Server.default.serve env service = Except.error ServeFault.addr_unwrap := by
  refine ⟨rfl, ?_, ?_⟩
  · intro s hs
    have hseq : ({ Server.default with addr := some addrs } : Server) = s := by
      simpa [Server.bind] using hs
    subst hseq
    cases henv : env.listener_bind r addrs <;>
      simp [Server.serve, h2, henv]
  · simp [Server.serve, h2, Server.default]

/-- Witness for C9 at a concrete environment. -/
theorem serve_requires_bind_witness :
    Server.bind (Except.ok [SocketAddr.mk 0 80])
        = some { Server.default with addr := some [SocketAddr.mk 0 80] }
      ∧ Server.default.serve envRun serviceId = Except.error ServeFault.addr_unwrap := by
  have h := serve_requires_bind Nat Nat envRun serviceId [SocketAddr.mk 0 80]
    (Reactor.mk 0) rfl
  exact ⟨h.1, h.2.2⟩

/-- C1: the first poll of a request unit built by `Lazy::call` synchronously
invokes the handler on the request and returns `Poll::Ready(Ok(response))` at
once — the new state has the slot emptied, and the outcome is never
`Pending`. -/
theorem call_first_poll_ready (Req Resp : Type) (l : Lazy Req Resp) (req : Req) :
    (l.call req).poll
      = some (Call.mk l.handler none, Poll.ready (Except.ok (l.handler.val.call req))) :=
  rfl

/-- C2: a request unit is consumed exactly once — polling it with the request
still in its slot empties the slot and yields exactly the one response the
handler produces on that request, while polling a unit whose slot is already
empty hits the `unwrap` guard and faults instead of producing a second
response. -/
theorem call_consumed_exactly_once (Req Resp : Type) (a : Arc (Service Req Resp))
    (req : Req) :
    Call.poll (Call.mk a (some req))
        = some (Call.mk a none, Poll.ready (Except.ok (a.val.call req)))
      ∧ Call.poll (Call.mk a none) = none :=
  ⟨rfl, rfl⟩

/-- C3: the per-connection factory stage never fails and never blocks — its
error type `Infallible` is uninhabited, `poll_ready` is always
`Ready(Ok(()))`, and `call` returns an already-completed successful future
holding a fresh per-request adapter that merely clones the shared handler
handle (same allocation identity, no new allocation). -/
theorem make_service_infallible_nonblocking (Req Resp T : Type)
    (m : MakeService Req Resp) (t : T) :
    (∀ e : Infallible, False)
      ∧ m.poll_ready () = Poll.ready (Except.ok ())
      ∧ MakeService.call m t = ready (Except.ok (Lazy.mk m.handler.clone))
      ∧ (MakeService.call m t).poll = Poll.ready (Except.ok (Lazy.mk m.handler))
      ∧ m.handler.clone = m.handler :=
  ⟨nofun, rfl, rfl, rfl, rfl⟩

/-- C4: all adapters derived from one server share the identity of exactly
one handler allocation — `serve` performs the single `Arc::new`, and the
per-connection adapter produced by `MakeService::call`, as well as the
per-request unit produced by `Lazy::call`, each hold a clone of that same
handle, so every one of them carries the one allocation identity. -/
theorem handler_identity_shared (Req Resp T : Type) (n : Nat)
    (s : Service Req Resp) (t : T) (req : Req) :
    (MakeService.call (MakeService.mk (Arc.new n s)) t).value
        = Except.ok (Lazy.mk (Arc.new n s))
      ∧ (Lazy.call (Lazy.mk (Arc.new n s)) req).handler = Arc.new n s
      ∧ (Arc.new n s).id = n
      ∧ (∀ (self : Server) (env : ServeEnv Req Resp) (listener : TcpListener),
          ((self.assemble env s listener).make_service).handler = Arc.new env.arc_id s) :=
  ⟨rfl, rfl, rfl, fun _ _ _ => rfl⟩

/-- C8: each optional-argument setter stores exactly the argument converted
to an `Option`; in particular passing `none` after the option was previously
set resets it to unset, so the engine default applies again. -/
theorem optional_setters_store_argument (self : Server) (sz : Option Nat) (v : Nat) :
    (self.set_http2_initial_stream_window_size sz).http2_initial_stream_window_size = sz
      ∧ (self.set_http2_initial_connection_window_size sz).http2_initial_connection_window_size = sz
      ∧ (self.set_http2_max_frame_size sz).http2_max_frame_size = sz
      ∧ (self.set_http2_max_concurrent_streams sz).http2_max_concurrent_streams = sz
      ∧ ((self.set_http2_initial_stream_window_size (some v)).set_http2_initial_stream_window_size
          none).http2_initial_stream_window_size = none
      ∧ ((self.set_http2_initial_connection_window_size (some v)).set_http2_initial_connection_window_size
          none).http2_initial_connection_window_size = none
      ∧ ((self.set_http2_max_frame_size (some v)).set_http2_max_frame_size
          none).http2_max_frame_size = none
      ∧ ((self.set_http2_max_concurrent_streams (some v)).set_http2_max_concurrent_streams
          none).http2_max_concurrent_streams = none :=
  ⟨rfl, rfl, rfl, rfl, rfl, rfl, rfl, rfl⟩

/-- C10: every builder setter updates exactly its own field and leaves every
other field of the `Server` unchanged, returning the otherwise-identical
builder. -/
theorem setters_frame_effect (self : Server) (b : Bool) (n : Nat) (d : Duration)
    (sz : Option Nat) :
    self.set_max_workers n = { self with max_workers := some n }
      ∧ self.set_worker_keep_alive d = { self with worker_keep_alive := some d }
      ∧ self.set_http1_keepalive b = { self with http1_keepalive := some b }
      ∧ self.set_http1_half_close b = { self with http1_half_close := some b }
      ∧ self.set_http1_max_buf_size n = { self with http1_max_buf_size := some n }
      ∧ self.set_http1_pipeline_flush b = { self with http1_pipeline_flush := some b }
      ∧ self.set_http1_writev b = { self with http1_writev := some b }
      ∧ self.set_http1_title_case_headers b = { self with http1_title_case_headers := some b }
      ∧ self.set_http1_preserve_header_case b = { self with http1_preserve_header_case := some b }
      ∧ self.set_http1_only b = { self with http1_only := some b }
      ∧ self.set_http2_only b = { self with http2_only := some b }
      ∧ self.set_http2_initial_stream_window_size sz
          = { self with http2_initial_stream_window_size := sz }
      ∧ self.set_http2_initial_connection_window_size sz
          = { self with http2_initial_connection_window_size := sz }
      ∧ self.set_http2_adaptive_window b = { self with http2_adaptive_window := some b }
      ∧ self.set_http2_max_frame_size sz = { self with http2_max_frame_size := sz }
      ∧ self.set_http2_max_concurrent_streams sz
          = { self with http2_max_concurrent_streams := sz }
      ∧ self.set_http2_max_send_buf_size n = { self with http2_max_send_buf_size := some n } :=
  ⟨rfl, rfl, rfl, rfl, rfl, rfl, rfl, rfl, rfl, rfl, rfl, rfl, rfl, rfl, rfl, rfl, rfl⟩

end Astra
